import Mathlib

/- Verification of the MemoriaVault backend (src/backend of the repository).
   The development shallowly embeds: the SQLite schema and operations of db.py,
   including the FTS5 synchronization triggers installed by init_database and the
   FTS5 match/snippet behaviour used by search_memories; the extraction helpers of
   ocr_utils.py and asr_utils.py; the sentiment pipeline of sentiment_utils.py; and
   the upload endpoint of app.py. External collaborators (Tesseract, Whisper,
   exifread, TextBlob, VADER, SQLite's FTS5 tokenizer/snippet) appear as explicit
   oracle parameters or as documented models of their library semantics. -/

namespace MemoriaVault

/-- One row of the `memories` table (schema created by init_database in db.py).
    `created_at` / `updated_at` default to CURRENT_TIMESTAMP; the timestamp strings
    order exactly like the instants they denote, so they are modelled as naturals.
    `sentiment` (REAL) is modelled as a rational. Nullable TEXT columns are Options;
    `title`, `media_path` and `media_type` are declared NOT NULL. -/
structure MemRow where
  id : Nat
  title : String
  text : Option String
  date : Option String
  location : Option String
  sentiment : Rat
  media_path : String
  media_type : String
  person : Option String
  created_at : Nat
  updated_at : Nat
deriving DecidableEq

/-- One row of the `memories_fts` FTS5 virtual table declared by init_database
    (columns title, text, person; content_rowid = memories.id). -/
structure FtsRow where
  rowid : Nat
  title : String
  text : Option String
  person : Option String
deriving DecidableEq

/-- Token characters of SQLite's default unicode61 FTS5 tokenizer, restricted to
    the ASCII fragment the code exercises: letters and digits. -/
def isTokChar (c : Char) : Bool := c.isAlphanum

/-- ASCII case folding applied by the unicode61 tokenizer to every token. -/
def lowerChar (c : Char) : Char :=
  match c with
  | 'A' => 'a' | 'B' => 'b' | 'C' => 'c' | 'D' => 'd' | 'E' => 'e' | 'F' => 'f'
  | 'G' => 'g' | 'H' => 'h' | 'I' => 'i' | 'J' => 'j' | 'K' => 'k' | 'L' => 'l'
  | 'M' => 'm' | 'N' => 'n' | 'O' => 'o' | 'P' => 'p' | 'Q' => 'q' | 'R' => 'r'
  | 'S' => 's' | 'T' => 't' | 'U' => 'u' | 'V' => 'v' | 'W' => 'w' | 'X' => 'x'
  | 'Y' => 'y' | 'Z' => 'z'
  | d => d

/-- Helper cutting a character list into maximal runs of characters satisfying `p`:
    returns the run touching the front of the list and the completed later runs. -/
def runsCore (p : Char → Bool) : List Char → List Char × List (List Char)
  | [] => ([], [])
  | c :: cs =>
    let (run, ts) := runsCore p cs
    if p c then (c :: run, ts)
    else ([], if run = [] then ts else run :: ts)

/-- The maximal runs of characters satisfying `p`, in order. -/
def runs (p : Char → Bool) (l : List Char) : List (List Char) :=
  let (run, ts) := runsCore p l
  if run = [] then ts else run :: ts

/-- Maximal token-character runs of a character list, in order. -/
def tokensAux (l : List Char) : List (List Char) :=
  runs isTokChar l

/-- Whether the first list occurs at the front of the second. -/
def isPreOf : List Char → List Char → Bool
  | [], _ => true
  | _ :: _, [] => false
  | a :: as, b :: bs => a == b && isPreOf as bs

/-- Whether the first list occurs contiguously anywhere inside the second: the
    substring relation on character lists. -/
def occursIn (p : List Char) : List Char → Bool
  | [] => isPreOf p []
  | c :: cs => isPreOf p (c :: cs) || occursIn p cs

/-- The unicode61 tokenization (ASCII fragment) FTS5 applies to the memories_fts
    columns and to query strings alike: maximal alphanumeric runs, case-folded. -/
def tokens (s : String) : List String :=
  (tokensAux s.data).map (fun l => String.mk (l.map lowerChar))

/-- The database state: the AUTOINCREMENT counter backing memories.id, the memories
    table, and the posting list of the memories_fts FTS5 inverted index.
    memories_fts is declared with content='memories' (an external-content table):
    its row view reads column values from the memories table (see fts_rows), while
    MATCH consults only the postings. The media_files table created by
    init_database is never written or read by any operation under verification and
    is omitted. -/
structure DB where
  next_id : Nat
  memories : List MemRow
  postings : List (String × Nat)
deriving DecidableEq

/-- The index entry derived from a memories row: the columns of the external-content
    memories_fts row view, which are read from the content table by rowid. -/
def ftsProj (r : MemRow) : FtsRow := ⟨r.id, r.title, r.text, r.person⟩

/-- The row view of the external-content memories_fts table: one derived entry per
    live content row. -/
def fts_rows (db : DB) : List FtsRow := db.memories.map ftsProj

/-- The postings an FTS5 insert of one row adds to the inverted index: every
    case-folded token of the row's title, text and person columns (the three
    memories_fts columns), keyed by the rowid. -/
def rowPostings (r : MemRow) : List (String × Nat) :=
  (tokens r.title ++ tokens (r.text.getD ("")) ++ tokens (r.person.getD (""))).map
    (fun t => (t, r.id))

/-- db.py create_memory: INSERT INTO memories (title, text, date, location, sentiment,
    media_path, media_type, person) VALUES (...); the AFTER INSERT trigger inserts
    the row into memories_fts within the same transaction, adding the postings for
    the new values. The INSERT raises (the Python function re-raises, modelled as
    `none`) when media_path or media_type is NULL or media_type violates its CHECK
    constraint. `now` is the CURRENT_TIMESTAMP default filling created_at and
    updated_at. On success returns cursor.lastrowid and the committed state. -/
def create_memory (title : String) (text date location : Option String) (sentiment : Rat)
    (media_path media_type person : Option String) (now : Nat) (db : DB) :
    Option (Nat × DB) :=
  match media_path, media_type with
  | some mp, some mt =>
    if mt = "image" ∨ mt = "audio" then
      let row : MemRow :=
        ⟨db.next_id, title, text, date, location, sentiment, mp, mt, person, now, now⟩
      some (db.next_id,
        ⟨db.next_id + 1, db.memories ++ [row], db.postings ++ rowPostings row⟩)
    else none
  | _, _ => none

/-- db.py get_memory_by_id: SELECT * FROM memories WHERE id = ?, fetchone. -/
def get_memory_by_id (memory_id : Nat) (db : DB) : Option MemRow :=
  db.memories.find? (fun r => r.id == memory_id)

/-- The keyword arguments of db.py update_memory. Python kwargs carry each key at
    most once; the six allow-listed columns are carried with their column types, and
    the keys outside the allow-list are carried by name in `extra` (update_memory
    only ever tests whether such a key is in the allow-list, so only presence
    matters). -/
structure UpdateArgs where
  title : Option String := none
  text : Option (Option String) := none
  date : Option (Option String) := none
  location : Option (Option String) := none
  sentiment : Option Rat := none
  person : Option (Option String) := none
  extra : List String := []
deriving DecidableEq

/-- Whether update_memory's kwargs filter leaves a non-empty SET clause list. -/
def has_allowed (a : UpdateArgs) : Bool :=
  a.title.isSome || a.text.isSome || a.date.isSome || a.location.isSome ||
    a.sentiment.isSome || a.person.isSome

/-- The row produced by update_memory's UPDATE on row `r`: allow-listed fields
    present in kwargs are assigned, updated_at is set to CURRENT_TIMESTAMP,
    everything else is untouched. -/
def apply_args (a : UpdateArgs) (now : Nat) (r : MemRow) : MemRow :=
  { r with
    title := a.title.getD r.title
    text := a.text.getD r.text
    date := a.date.getD r.date
    location := a.location.getD r.location
    sentiment := a.sentiment.getD r.sentiment
    person := a.person.getD r.person
    updated_at := now }

/-- db.py update_memory: filters kwargs to the allow-list; if no SET clause remains
    it returns False without touching the database (even when the id exists);
    otherwise it runs the UPDATE and returns rowcount > 0, i.e. whether the id
    exists. The AFTER UPDATE trigger issues a plain UPDATE on the external-content
    memories_fts table; FTS5 executes that as delete-old-postings plus
    insert-new-postings, but reads the "old" column values from the content table,
    which the outer UPDATE has already rewritten — so no stale posting is ever
    purged while postings for the new values are added: tokens of the old values
    keep matching the row. -/
def update_memory (memory_id : Nat) (a : UpdateArgs) (now : Nat) (db : DB) : Bool × DB :=
  if has_allowed a then
    match db.memories.find? (fun r => r.id == memory_id) with
    | none => (false, db)
    | some r =>
      let r' := apply_args a now r
      (true,
        { db with
          memories := db.memories.map (fun x => if x.id = memory_id then r' else x)
          postings := db.postings ++ rowPostings r' })
  else (false, db)

/-- db.py delete_memory: SELECT media_path WHERE id = ?; on a missing id it returns
    False leaving the state unchanged; otherwise DELETE FROM memories WHERE id = ?
    and it returns True. The AFTER DELETE trigger issues a plain DELETE on the
    external-content memories_fts table after the content row is already gone, so
    FTS5 cannot reconstruct the row's values and purges no postings: the inverted
    index keeps the ghost rowid (raw MATCH still returns it; only the join with
    memories hides it from callers). The caller-visible return value of the Python
    function is only this boolean; the media-file removal the function then
    attempts internally is modelled separately by `delete_attempts`. -/
def delete_memory (memory_id : Nat) (db : DB) : Bool × DB :=
  match db.memories.find? (fun r => r.id == memory_id) with
  | none => (false, db)
  | some _ =>
    (true, { db with memories := db.memories.filter (fun r => r.id != memory_id) })

/-- The media paths whose removal db.py delete_memory attempts (os.remove) after a
    successful delete: the stored media_path when it is a truthy string. The
    os.path.exists guard consults the external filesystem, which is outside the
    modelled state; the attempt is recorded whenever the code would consult it. -/
def delete_attempts (memory_id : Nat) (db : DB) : List String :=
  match db.memories.find? (fun r => r.id == memory_id) with
  | none => []
  | some r => if r.media_path = "" then [] else [r.media_path]

/-- Pairwise order demanded by ORDER BY created_at DESC: created_at non-increasing. -/
def createdDesc (a b : MemRow) : Prop := b.created_at ≤ a.created_at

/-- db.py get_all_memories and the identical query in app.py list_memories:
    SELECT * FROM memories ORDER BY created_at DESC LIMIT ? OFFSET ?. SQL leaves the
    relative order of rows with equal created_at unspecified, so the admissible
    results are exactly: any created_at-descending permutation of the table, with
    OFFSET rows skipped and at most LIMIT rows kept. -/
def get_all_memories (limit offset : Nat) (db : DB) (ys : List MemRow) : Prop :=
  ∃ zs : List MemRow,
    zs.Perm db.memories ∧ zs.Pairwise createdDesc ∧ ys = (zs.drop offset).take limit

/-- An example empty initial state, as produced by init_database on a fresh file. -/
def exDb0 : DB := ⟨1, [], []⟩

/-- The row committed by one successful create on `exDb0` (title "t", text "x",
    media "/m.jpg", kind image, at time 5). -/
def exRow1 : MemRow := ⟨1, "t", some ("x"), none, none, 0, "/m.jpg", "image", none, 5, 5⟩

/-- The state after creating `exRow1` on the fresh database. -/
def exDb1 : DB := ⟨2, [exRow1], rowPostings exRow1⟩

instance : DecidableRel createdDesc :=
  fun a b => inferInstanceAs (Decidable (b.created_at ≤ a.created_at))

/-- The tie-break ordering the specification claims for list results: created_at
    strictly descending, or equal created_at with id strictly descending. -/
def claimOrder (a b : MemRow) : Prop :=
  b.created_at < a.created_at ∨ (b.created_at = a.created_at ∧ b.id < a.id)

instance : DecidableRel claimOrder :=
  fun a b =>
    inferInstanceAs (Decidable (b.created_at < a.created_at ∨
      (b.created_at = a.created_at ∧ b.id < a.id)))

/-- An image row with media path "/a.jpg". -/
def exRowA : MemRow := ⟨1, "t", none, none, none, 0, "/a.jpg", "image", none, 5, 5⟩

/-- An image row identical to `exRowA` except for media path "/b.jpg". -/
def exRowB : MemRow := ⟨1, "t", none, none, none, 0, "/b.jpg", "image", none, 5, 5⟩

/-- A one-record state holding `exRowA`. -/
def exDbA : DB := ⟨2, [exRowA], rowPostings exRowA⟩

/-- A one-record state holding `exRowB`. -/
def exDbB : DB := ⟨2, [exRowB], rowPostings exRowB⟩

/-- Two rows created within the same CURRENT_TIMESTAMP second (equal created_at)
    with ids 1 and 2. -/
def rT1 : MemRow := ⟨1, "a", none, none, none, 0, "/1.jpg", "image", none, 5, 5⟩

/-- Second row of the equal-timestamp pair. -/
def rT2 : MemRow := ⟨2, "b", none, none, none, 0, "/2.jpg", "image", none, 5, 5⟩

/-- A two-record state whose rows share one created_at value. -/
def exDbTie : DB := ⟨3, [rT1, rT2], rowPostings rT1 ++ rowPostings rT2⟩

/-- The record created in the C1 failing trace: title "alpha note". -/
def alphaRow : MemRow :=
  ⟨1, "alpha note", none, none, none, 0, "/m.jpg", "image", none, 5, 5⟩

/-- The state after creating `alphaRow` on the fresh database. -/
def dbAfterCreate : DB := ⟨2, [alphaRow], rowPostings alphaRow⟩

/-- The state after renaming the record to "beta note" via update_memory. -/
def dbAfterUpdate : DB :=
  (update_memory 1 { title := some ("beta note") } 9 dbAfterCreate).2

/-- The state after then deleting the record via delete_memory. -/
def dbAfterDelete : DB := (delete_memory 1 dbAfterUpdate).2

/-- The FTS5 MATCH predicate of search_memories against the inverted index, for a
    plain term-list query (see plainTermQuery): a rowid matches when every
    case-folded query term has a posting for it (implicit AND across terms, each
    term matching in any column). A query with no tokens is an FTS5 syntax error in
    the source; it matches nothing here. -/
def ftsMatch (q : String) (postings : List (String × Nat)) (rid : Nat) : Bool :=
  !(tokens q).isEmpty &&
    (tokens q).all (fun t => postings.any (fun p => p.1 == t && p.2 == rid))

/-- The whitespace-separated words of a column value, the units the snippet model
    windows over. -/
def snippetWords (s : String) : List String :=
  (runs (fun c => !(c = ' ')) s.data).map String.mk

/-- Whether a word carries a match for one of the query tokens. -/
def wordMatches (qtoks : List String) (w : String) : Bool :=
  (tokens w).any (fun t => qtoks.contains t)

/-- Wraps a matching word in the open/close highlight markers. -/
def markWord (op cl : String) (qtoks : List String) (w : String) : String :=
  if wordMatches qtoks w then op ++ w ++ cl else w

/-- Model of SQLite's auxiliary function snippet(fts, col, open, close, ellip, n)
    on whitespace-separated text. A NULL or empty column yields "". A column of at
    most n words is returned whole with every matching word highlighted and no
    ellipsis — exactly FTS5's behaviour, and the only case the verified claims
    exercise. For longer columns FTS5's passage selection is approximated by the
    n-word window at the first match (leading window when nothing matches), with
    the ellipsis marking truncation on either side. -/
def snippetModel (op cl ellip : String) (n : Nat) (qtoks : List String)
    (col : String) : String :=
  let ws := snippetWords col
  if ws = [] then ""
  else if ws.length ≤ n then
    String.intercalate (" ") (ws.map (markWord op cl qtoks))
  else
    let start := min ((ws.findIdx (wordMatches qtoks))) (ws.length - n)
    let win := (ws.drop start).take n
    (if start = 0 then "" else ellip) ++
      String.intercalate (" ") (win.map (markWord op cl qtoks)) ++
      (if start + n < ws.length then ellip else "")

/-- One row of search_memories' result list (db.py lines 252-260). -/
structure SearchResult where
  id : Nat
  title : String
  snippet : String
  date : Option String
  sentiment : Rat
  media_type : String
  media_path : String
deriving DecidableEq

/-- One search result as assembled by db.py search_memories. The SQL computes
    snippet(memories_fts, 1, ...) aliased title_snippet and snippet(memories_fts,
    2, ...) aliased text_snippet; FTS5 numbers columns from zero (title 0, text 1,
    person 2), so the value aliased title_snippet is in fact a snippet of the text
    column and the value aliased text_snippet a snippet of the person column. On an
    external-content table snippet() reads the column values from the joined
    content row, i.e. the current values. A NULL column gives an empty snippet, and
    Python's truthiness test on the two snippet strings admits exactly the
    non-empty ones; with no usable part the snippet falls back to the raw title. -/
def mkResult (q : String) (m : MemRow) : SearchResult :=
  let title_snippet :=
    snippetModel ("<mark>") ("</mark>") ("...") 32 (tokens q) (m.text.getD (""))
  let text_snippet :=
    snippetModel ("<mark>") ("</mark>") ("...") 64 (tokens q) (m.person.getD (""))
  let parts :=
    (if title_snippet = "" then [] else ["Title: " ++ title_snippet]) ++
      (if text_snippet = "" then [] else ["Text: " ++ text_snippet])
  { id := m.id
    title := m.title
    snippet := if parts = [] then m.title else String.intercalate (" | ") parts
    date := m.date
    sentiment := m.sentiment
    media_type := m.media_type
    media_path := m.media_path }

/-- The app-visible match set of search_memories' query: FTS5 locates the matching
    rowids in the inverted index, and the SQL joins memories ON memories_fts.rowid
    = m.id, so exactly the live content rows whose rowid matches are returned —
    ghost rowids left in the index by deletes are hidden by the join, while stale
    postings of live rows still surface them. -/
def search_matches (q : String) (db : DB) : List MemRow :=
  db.memories.filter (fun m => ftsMatch q db.postings m.id)

/-- A record whose title and text both contain the token "lake" (person NULL). -/
def snipRow : MemRow :=
  ⟨1, "Summer lake", some ("We visited the lake"), none, none, 0, "/p.jpg", "image",
    none, 5, 5⟩

/-- The one-record state holding `snipRow`. -/
def exDbSnip : DB := ⟨2, [snipRow], rowPostings snipRow⟩

/-- Whitespace as stripped by Python's str.strip (ASCII fragment: space, tab,
    carriage return, line feed). -/
def isWS (c : Char) : Bool := c = ' ' || c = '\t' || c = '\r' || c = '\n'

/-- Python str.strip(): removes leading and trailing whitespace. -/
def pyStrip (s : String) : String :=
  String.mk (((s.data.dropWhile isWS).reverse.dropWhile isWS).reverse)

/-- Collapses every run of two or more equal characters drawn from `cs` down to a
    single character: the fixpoint of Python's repeated replace of a doubled
    character by a single one, applied by clean_extracted_text to spaces and by
    clean_text_for_sentiment to '!', '?' and '.'. -/
def squeezeRuns (cs : List Char) : List Char → List Char
  | [] => []
  | c :: rest =>
    match squeezeRuns cs rest with
    | [] => [c]
    | d :: ds => if cs.contains c && d = c then d :: ds else c :: d :: ds

/-- ocr_utils.clean_extracted_text: split the raw OCR output on newlines, strip
    each line, drop empty lines, join with single spaces, collapse consecutive
    spaces (the while-replace loop), and strip the ends. -/
def clean_extracted_text (text : String) : String :=
  if text = "" then ""
  else
    let stripped := ((runs (fun c => !(c = '\n')) text.data).map
      (fun l => pyStrip (String.mk l))).filter (fun l => l ≠ "")
    pyStrip (String.mk (squeezeRuns ([' ']) (String.intercalate (" ") stripped).data))

/-- Outcome of the external Tesseract collaborator for one call of
    extract_text_from_image: the engine probe (get_tesseract_version) may raise,
    the preprocessing/recognition may raise, or recognition returns a raw string. -/
inductive OcrOutcome where
  | engineMissing : OcrOutcome
  | failed : String → OcrOutcome
  | ok : String → OcrOutcome

/-- ocr_utils.extract_text_from_image: a missing engine returns the fixed
    diagnostic string; an exception anywhere in the try block is absorbed into the
    string "Text extraction failed: " followed by the exception text; on success
    the raw OCR output is cleaned by clean_extracted_text. The function never
    raises. -/
def extract_text_from_image : OcrOutcome → String
  | .engineMissing => "OCR not available - Tesseract not installed"
  | .failed e => "Text extraction failed: " ++ e
  | .ok raw => clean_extracted_text raw

/-- Outcome of the external Whisper collaborator for one call of transcribe_audio:
    the audio file may be missing (the function itself raises FileNotFoundError
    and catches it), loading or transcription may raise, or transcription returns
    the result text. -/
inductive AsrOutcome where
  | fileMissing : AsrOutcome
  | failed : String → AsrOutcome
  | ok : String → AsrOutcome

/-- asr_utils.transcribe_audio on the file at `path`: a missing file raises
    FileNotFoundError("Audio file not found: " + path), which the function's own
    handler turns into "Transcription failed: " plus the message; any other
    exception likewise; on success the transcript is stripped. Never raises. -/
def transcribe_audio (path : String) : AsrOutcome → String
  | .fileMissing => "Transcription failed: Audio file not found: " ++ path
  | .failed e => "Transcription failed: " ++ e
  | .ok raw => pyStrip raw

/-- The dictionary extract_exif_data returns: exactly the keys date, location,
    camera_make and camera_model, each a string or None. -/
structure ExifData where
  date : Option String
  location : Option String
  camera_make : Option String
  camera_model : Option String
deriving DecidableEq

/-- The all-None dictionary extract_exif_data falls back to. -/
def emptyExif : ExifData := ⟨none, none, none, none⟩

/-- The date conversion of extract_exif_data: date_str.split(' ')[0] with every
    ':' replaced by '-'; a split always has a first element, so the inner except
    around this conversion is unreachable. -/
def convert_exif_date (d : String) : String :=
  String.mk ((d.data.takeWhile (fun c => !(c = ' '))).map
    (fun c => if c = ':' then '-' else c))

/-- ocr_utils.extract_exif_data. The exifread collaborator either fails (any
    exception in the try block: unreadable file, parse error), modelled as `none`
    and absorbed by the outer except into the all-None dictionary, or yields the
    tag table, modelled as a lookup from tag name to the tag's string rendering.
    The record type carries exactly the four keys of the Python dictionary, so the
    function is total and shape-correct by construction. -/
def extract_exif_data : Option (String → Option String) → ExifData
  | none => emptyExif
  | some tags =>
    let date :=
      match tags ("EXIF DateTimeOriginal") with
      | some d => some (convert_exif_date d)
      | none =>
        match tags ("Image DateTime") with
        | some d => some (convert_exif_date d)
        | none => none
    let location :=
      match tags ("GPS GPSLatitude"), tags ("GPS GPSLongitude") with
      | some la, some lo => some ("GPS: " ++ la ++ ", " ++ lo)
      | _, _ => none
    ⟨date, location, tags ("Image Make"), tags ("Image Model")⟩

/-- Round half to even at the given rational, Python's round(x) on the integer
    grid. -/
def round_half_even (q : Rat) : Int :=
  if q - ⌊q⌋ < 1/2 then ⌊q⌋
  else if 1/2 < q - ⌊q⌋ then ⌊q⌋ + 1
  else if ⌊q⌋ % 2 = 0 then ⌊q⌋ else ⌊q⌋ + 1

/-- Python's round(x, 2): round half to even on the hundredths grid. -/
def round2 (q : Rat) : Rat := (round_half_even (q * 100) : Rat) / 100

/-- sentiment_utils.clean_text_for_sentiment: whitespace runs collapse to single
    spaces with the ends stripped (the re.sub of \s+ combined with strip), runs of
    '!', '?' and '.' collapse to one character each, and the result is stripped.
    The URL, e-mail and phone-number removal substitutions are not modelled: every
    claim under verification holds for an arbitrary scrubbed string (the sentiment
    bound quantifies over all scorer inputs, and emptiness of the input is decided
    before this function runs). -/
def clean_text_for_sentiment (text : String) : String :=
  if text = "" then ""
  else
    let ws := (runs (fun c => !(isWS c)) text.data).map String.mk
    pyStrip (String.mk (squeezeRuns (['!', '?', '.'])
      (String.intercalate (" ") ws).data))

/-- sentiment_utils.analyze_sentiment, with the two external scorers (TextBlob
    polarity via get_textblob_sentiment and the VADER compound score via
    get_vader_sentiment, each already absorbing its own exceptions into 0.0) as
    oracle parameters. Returns the score together with whether the scorers were
    invoked. Falsy or whitespace-only text, and text whose scrub leaves nothing,
    yield 0.0 before any scorer runs; otherwise the two scores are averaged and
    rounded to two decimals. -/
def analyze_sentiment (tb vd : String → Rat) (text : String) : Rat × Bool :=
  if text = "" || pyStrip text = "" then (0, false)
  else if clean_text_for_sentiment text = "" then (0, false)
  else (round2 ((tb (clean_text_for_sentiment text) +
    vd (clean_text_for_sentiment text)) / 2), true)

/-- app.py line 126: the stored sentiment of the extracted text — a falsy (empty)
    extracted text short-circuits to 0.0 without calling analyze_sentiment. -/
def sentimentFor (tb vd : String → Rat) (extracted : String) : Rat :=
  if extracted = "" then 0 else (analyze_sentiment tb vd extracted).1

/-- The external collaborator outcomes one upload consumes: the Tesseract and
    exifread outcomes for an image, the Whisper outcome for an audio file, and the
    two sentiment scorers. -/
structure Collaborators where
  ocr : OcrOutcome
  exif : Option (String → Option String)
  asr : AsrOutcome
  tb : String → Rat
  vd : String → Rat

/-- The request of app.py upload_memory: the file's declared content type (None
    when undetected), the form title (required by FastAPI to be present, with no
    constraint on its value), and the optional person. -/
structure UploadArgs where
  content_type : Option String
  title : String
  person : Option String

/-- The caller-visible outcome of app.py upload_memory. `err` covers every path on
    which an HTTPException escapes — including the 400 validations, which the
    endpoint's blanket `except Exception` re-wraps into a 500; either way no record
    is committed. `ok` is the 200 response carrying the new memory id. -/
inductive UploadResult where
  | err : String → UploadResult
  | ok : Nat → UploadResult
deriving DecidableEq

/-- Python str.startswith, used on the declared content type. -/
def startsWithStr (p s : String) : Bool := isPreOf p.data s.data

/-- app.py upload_memory. Validation: a missing content type, or one that is
    neither image/* nor audio/*, is rejected before any side effect; the title is
    never validated. The saved blob is uploads/ plus the generated uuid name, and
    the stored media_path is /media/uploads/ plus the same name. Image uploads run
    OCR and EXIF, audio uploads run ASR; the extraction helpers never raise, so
    control always reaches create_memory, whose constraints are satisfied here
    (media_path and media_type non-NULL and valid), committing exactly one record
    in one transaction. -/
def upload_memory (c : Collaborators) (args : UploadArgs) (uuid_name : String)
    (now : Nat) (db : DB) : UploadResult × DB :=
  match args.content_type with
  | none => (.err ("File type not detected"), db)
  | some ct =>
    if !startsWithStr ("image/") ct && !startsWithStr ("audio/") ct then
      (.err ("Only image (JPEG, PNG) and audio (MP3, WAV) files are supported"), db)
    else
      let extracted_text :=
        if startsWithStr ("image/") ct then extract_text_from_image c.ocr
        else transcribe_audio ("uploads/" ++ uuid_name) c.asr
      let exd :=
        if startsWithStr ("image/") ct then extract_exif_data c.exif else emptyExif
      match create_memory args.title (some extracted_text) exd.date exd.location
          (sentimentFor c.tb c.vd extracted_text)
          (some ("/media/uploads/" ++ uuid_name))
          (some (if startsWithStr ("image/") ct then "image" else "audio"))
          args.person now db with
      | some (id, db') => (.ok id, db')
      | none => (.err ("Upload failed"), db)

/-- The record app.py upload_memory assembles and hands to create_memory: the
    extracted text, the EXIF-derived fields (image uploads only), the sentiment of
    the extracted text, the stored media path and the media kind. -/
def assembled_row (c : Collaborators) (title : String) (person : Option String)
    (uuid_name : String) (now : Nat) (isImg : Bool) (id : Nat) : MemRow :=
  if isImg then
    ⟨id, title, some (extract_text_from_image c.ocr),
      (extract_exif_data c.exif).date, (extract_exif_data c.exif).location,
      sentimentFor c.tb c.vd (extract_text_from_image c.ocr),
      "/media/uploads/" ++ uuid_name, "image", person, now, now⟩
  else
    ⟨id, title, some (transcribe_audio ("uploads/" ++ uuid_name) c.asr), none, none,
      sentimentFor c.tb c.vd (transcribe_audio ("uploads/" ++ uuid_name) c.asr),
      "/media/uploads/" ++ uuid_name, "audio", person, now, now⟩

/-- Collaborators that all fail: Tesseract missing, exifread failing, Whisper
    raising, scorers constant zero. -/
def failCollab : Collaborators :=
  ⟨.engineMissing, none, .failed ("read error"), fun _ => 0, fun _ => 0⟩

/-- Collaborators that all succeed with empty recognition output. -/
def emptyOkCollab : Collaborators :=
  ⟨.ok (""), none, .ok (""), fun _ => 0, fun _ => 0⟩

/-- Filtering a mapped list moves the predicate through the map. -/
theorem filter_of_map {α β : Type} (f : α → β) (p : β → Bool) (l : List α) :
    (l.map f).filter p = (l.filter (fun x => p (f x))).map f := by
  induction l with
  | nil => rfl
  | cons x xs ih =>
    simp only [List.map_cons, List.filter_cons]
    by_cases h : p (f x) = true
    · simp [h, ih]
    · simp [h, ih]

/-- Looking up the next id in the table extended by a row carrying it finds that
    row, provided every existing id is below the id counter. -/
theorem find?_append_new (db : DB) (hw : ∀ r ∈ db.memories, r.id < db.next_id)
    (row : MemRow) (hrow : row.id = db.next_id) :
    (db.memories ++ [row]).find? (fun r => r.id == db.next_id) = some row := by
  rw [List.find?_append]
  have h1 : db.memories.find? (fun r => r.id == db.next_id) = none := by
    rw [List.find?_eq_none]
    intro x hx
    simp only [beq_iff_eq]
    exact Nat.ne_of_lt (hw x hx)
  rw [h1]
  simp [hrow]

/-- C1: the claimed record/index synchronization does not hold on the code's
    external-content memories_fts table, evaluated on a concrete trace. After
    create_memory of a record titled "alpha note" and update_memory renaming it to
    "beta note", the record's title is "beta note" yet the stale posting for the
    old token survives and the application's own search for "alpha" still returns
    the record — the index entry is not re-derived within the update's transaction.
    After delete_memory the postings persist altogether, leaving index postings for
    the ghost rowid 1 without any record: raw MATCH still returns the rowid and
    only the join with memories hides it from callers. The triggers' plain
    UPDATE/DELETE cannot purge old postings of an external-content FTS5 table; the
    documented pattern requires the special 'delete' command carrying the old
    column values. -/
theorem fts_stale_postings_bug :
    create_memory ("alpha note") none none none 0 (some ("/m.jpg")) (some ("image"))
        none 5 exDb0 = some (1, dbAfterCreate) ∧
      (get_memory_by_id 1 dbAfterUpdate).map MemRow.title = some ("beta note") ∧
      (search_matches ("alpha") dbAfterUpdate).map MemRow.id = [1] ∧
      dbAfterDelete.memories = [] ∧
      (("alpha", 1) ∈ dbAfterDelete.postings) ∧
      search_matches ("alpha") dbAfterDelete = [] := by
  refine ⟨by decide, by decide, by decide, by decide, by decide, by decide⟩

/-- C4 counterexample: the claim says a call whose fields all lie outside the
    allow-list is silently ignored and still returns success for an existing id; in
    the code such a call hits the empty-SET-clause early return and yields False
    even though id 1 exists. -/
theorem update_ignored_only_counterexample :
    (update_memory 1 { extra := ["media_path"] } 9 exDb1).1 = false ∧
      (get_memory_by_id 1 exDb1).isSome = true := by
  constructor
  · rfl
  · rfl

/-- C4 (amended): update touches only the six allow-listed columns; unknown fields
    never influence the result; when at least one allow-listed field is supplied the
    call sets updated_at and returns success exactly when the id exists, leaving id,
    media_path, media_type and created_at untouched; when no allow-listed field is
    supplied it returns False without touching the state, even for an existing id. -/
theorem update_memory_allowlist (db : DB) (memory_id now : Nat) (a : UpdateArgs) :
    (has_allowed a = false → update_memory memory_id a now db = (false, db)) ∧
    (∀ e, update_memory memory_id { a with extra := e } now db =
      update_memory memory_id a now db) ∧
    (has_allowed a = true →
      ((update_memory memory_id a now db).1 = true ↔
        (get_memory_by_id memory_id db).isSome = true)) ∧
    (∀ r, has_allowed a = true → get_memory_by_id memory_id db = some r →
      (update_memory memory_id a now db).2.memories =
        db.memories.map
          (fun x => if x.id = memory_id then apply_args a now r else x) ∧
      (apply_args a now r).updated_at = now ∧
      (apply_args a now r).id = r.id ∧
      (apply_args a now r).media_path = r.media_path ∧
      (apply_args a now r).media_type = r.media_type ∧
      (apply_args a now r).created_at = r.created_at) := by
  refine ⟨?_, ?_, ?_, ?_⟩
  · intro h
    simp [update_memory, h]
  · intro e
    rfl
  · intro h
    simp only [update_memory, get_memory_by_id, h, if_true]
    cases hf : db.memories.find? (fun r => r.id == memory_id) with
    | none => simp
    | some r => simp
  · intro r h hr
    simp only [get_memory_by_id] at hr
    simp [update_memory, h, hr, apply_args]

/-- Witness for C4 (amended) at a concrete state: an update of the title that also
    carries the unknown key media_path succeeds on the existing id 1, and the
    unknown key has no influence on the outcome. -/
theorem update_memory_allowlist_witness :
    (update_memory 1 { title := some ("u"), extra := ["media_path"] } 9 exDb1).1 = true ∧
      update_memory 1 { title := some ("u"), extra := ["media_path"] } 9 exDb1 =
        update_memory 1 { title := some ("u") } 9 exDb1 := by
  have h := update_memory_allowlist exDb1 1 9 { title := some ("u"), extra := ["media_path"] }
  exact ⟨(h.2.2.1 (by decide)).mpr (by decide),
    h.2.1 ["media_path"] ▸ (h.2.1 []).symm ▸ rfl⟩

/-- C5 counterexample: the claim says delete returns the deleted record's mediaPath
    to the caller; the Python function returns only the boolean True for every
    successful delete, so no reading of the caller-visible return can recover the
    mediaPath — two states whose record 1 has different media paths give identical
    returns. -/
theorem delete_returns_no_path_counterexample :
    (delete_memory 1 exDbA).1 = (delete_memory 1 exDbB).1 ∧
      (get_memory_by_id 1 exDbA).map MemRow.media_path ≠
        (get_memory_by_id 1 exDbB).map MemRow.media_path ∧
      ¬ ∃ f : Bool → Option String, ∀ db : DB,
        f (delete_memory 1 db).1 = (get_memory_by_id 1 db).map MemRow.media_path := by
  refine ⟨rfl, by decide, ?_⟩
  rintro ⟨f, hf⟩
  have ha := hf exDbA
  have hb := hf exDbB
  have e1 : (delete_memory 1 exDbA).1 = true := rfl
  have e2 : (delete_memory 1 exDbB).1 = true := rfl
  have e3 : (get_memory_by_id 1 exDbA).map MemRow.media_path = some ("/a.jpg") := rfl
  have e4 : (get_memory_by_id 1 exDbB).map MemRow.media_path = some ("/b.jpg") := rfl
  rw [e1, e3] at ha
  rw [e2, e4] at hb
  rw [ha] at hb
  exact absurd hb (by decide)

/-- C5 (amended): for an existing id, delete removes the record and its index entry
    in one atomic step and returns success (True); the blob removal is attempted
    internally on the record's media_path rather than the path being returned; for a
    nonexistent id it returns NotFound (False) and leaves the state unchanged. -/
theorem delete_memory_behavior (db : DB) (memory_id : Nat) :
    (get_memory_by_id memory_id db = none → delete_memory memory_id db = (false, db)) ∧
    (∀ r, get_memory_by_id memory_id db = some r →
      (delete_memory memory_id db).1 = true ∧
      (delete_memory memory_id db).2.memories =
        db.memories.filter (fun x => x.id != memory_id) ∧
      fts_rows (delete_memory memory_id db).2 =
        (fts_rows db).filter (fun f => f.rowid != memory_id) ∧
      (delete_memory memory_id db).2.next_id = db.next_id ∧
      delete_attempts memory_id db =
        (if r.media_path = "" then [] else [r.media_path]) ∧
      get_memory_by_id memory_id (delete_memory memory_id db).2 = none ∧
      (delete_memory memory_id db).2.postings = db.postings ∧
      (∀ q, ∀ m ∈ search_matches q (delete_memory memory_id db).2,
        m.id ≠ memory_id)) := by
  constructor
  · intro h
    simp only [get_memory_by_id] at h
    simp [delete_memory, h]
  · intro r hr
    simp only [get_memory_by_id] at hr
    refine ⟨?_, ?_, ?_, ?_, ?_, ?_, ?_, ?_⟩ <;>
      simp only [delete_memory, delete_attempts, get_memory_by_id, fts_rows,
        search_matches, hr]
    · exact (filter_of_map ftsProj (fun f => f.rowid != memory_id) db.memories).symm
    · rw [List.find?_eq_none]
      intro x hx
      have := (List.mem_filter.mp hx).2
      simpa using this
    · intro q m hm
      have hmem := List.mem_of_mem_filter hm
      have := (List.mem_filter.mp hmem).2
      simpa using this

/-- Witness for C5 (amended) at a concrete state: deleting the existing id 1 from
    `exDbA` returns True, empties the table and the index, attempts removal of
    "/a.jpg", and a subsequent lookup of id 1 yields NotFound; deleting the missing
    id 2 changes nothing and returns False. -/
theorem delete_memory_behavior_witness :
    (delete_memory 1 exDbA).1 = true ∧ delete_attempts 1 exDbA = ["/a.jpg"] ∧
      get_memory_by_id 1 (delete_memory 1 exDbA).2 = none ∧
      (delete_memory 1 exDbA).2.postings = exDbA.postings ∧
      delete_memory 2 exDbA = (false, exDbA) := by
  have h := (delete_memory_behavior exDbA 1).2 exRowA rfl
  have h2 := (delete_memory_behavior exDbA 2).1 rfl
  refine ⟨h.1, ?_, h.2.2.2.2.2.1, h.2.2.2.2.2.2.1, h2⟩
  rw [h.2.2.2.2.1]
  decide

/-- C6 counterexample: the claim demands id-descending order for equal created_at
    timestamps, but the query has no secondary sort key, so the id-ascending
    arrangement of two rows sharing a created_at is also an admissible result of
    ORDER BY created_at DESC — and it violates the claimed ordering. -/
theorem list_tiebreak_counterexample :
    get_all_memories 20 0 exDbTie [rT1, rT2] ∧
      ¬ List.Pairwise claimOrder [rT1, rT2] := by
  constructor
  · exact ⟨[rT1, rT2], List.Perm.refl _, by decide, rfl⟩
  · intro h
    have := List.rel_of_pairwise_cons h (List.mem_singleton.mpr rfl)
    rcases this with h1 | h2
    · exact absurd h1 (by decide)
    · exact absurd h2.2 (by decide)

/-- C6 (amended): every admissible result of list (get_all_memories in db.py and the
    identical query of list_memories in app.py) is ordered by created_at descending;
    the relative order of records with equal created_at is not specified by the
    query, which has no secondary sort key. -/
theorem list_ordered_by_created_desc (limit offset : Nat) (db : DB) (ys : List MemRow)
    (h : get_all_memories limit offset db ys) : ys.Pairwise createdDesc := by
  obtain ⟨zs, _, hp, hy⟩ := h
  subst hy
  exact hp.sublist ((List.take_sublist _ _).trans (List.drop_sublist _ _))

/-- Witness for C6 (amended) at a concrete state: the id-ascending arrangement of
    the equal-timestamp pair is an admissible list result and is indeed
    created_at-descending. -/
theorem list_ordered_by_created_desc_witness : List.Pairwise createdDesc [rT1, rT2] :=
  list_ordered_by_created_desc 20 0 exDbTie [rT1, rT2]
    ⟨[rT1, rT2], List.Perm.refl _, by decide, rfl⟩

/-- C9: evaluating the search of db.py on a record whose title and text both match
    the query. The claim (and the code's own column aliases) expect the snippet
    "Title: <title snippet> | Text: <text snippet>"; because FTS5 numbers snippet
    columns from zero, the code's snippet(…, 1, …) reads the text column and
    snippet(…, 2, …) reads the person column, so the produced snippet labels the
    text-column snippet "Title:" and — the person column being NULL — carries no
    "Text:" part at all. -/
theorem snippet_mislabeled_bug :
    ("lake") ∈ tokens ("Summer lake") ∧ ("lake") ∈ tokens ("We visited the lake") ∧
      (search_matches ("lake") exDbSnip).map
          (fun m => (mkResult ("lake") m).snippet) =
        ["Title: We visited the <mark>lake</mark>"] ∧
      occursIn ((" | Text: ").data) (("Title: We visited the <mark>lake</mark>").data) =
        false := by
  refine ⟨by decide, by decide, by decide, by decide⟩

/-- C10: extract_exif_data is total and shape-correct for every outcome of the
    exifread collaborator — the result always carries exactly the keys date,
    location, camera_make and camera_model, each a string or None (enforced by the
    ExifData record type mirroring the Python dictionary); any internal failure
    yields the dictionary with all four values None rather than raising; and each
    field is derived from its tags exactly as the source computes it, absent tags
    giving None. -/
theorem exif_total_shape (t : String → Option String) :
    extract_exif_data none = emptyExif ∧
    (extract_exif_data (some t)).camera_make = t ("Image Make") ∧
    (extract_exif_data (some t)).camera_model = t ("Image Model") ∧
    (t ("EXIF DateTimeOriginal") = none → t ("Image DateTime") = none →
      (extract_exif_data (some t)).date = none) ∧
    (∀ d, t ("EXIF DateTimeOriginal") = some d →
      (extract_exif_data (some t)).date = some (convert_exif_date d)) ∧
    ((t ("GPS GPSLatitude") = none ∨ t ("GPS GPSLongitude") = none) →
      (extract_exif_data (some t)).location = none) ∧
    (∀ la lo, t ("GPS GPSLatitude") = some la → t ("GPS GPSLongitude") = some lo →
      (extract_exif_data (some t)).location = some ("GPS: " ++ la ++ ", " ++ lo)) := by
  refine ⟨rfl, rfl, rfl, ?_, ?_, ?_, ?_⟩
  · intro h1 h2
    simp [extract_exif_data, h1, h2]
  · intro d hd
    simp [extract_exif_data, hd]
  · intro h
    rcases h with h | h
    · cases hlo : t ("GPS GPSLongitude") <;> simp [extract_exif_data, h, hlo]
    · cases hla : t ("GPS GPSLatitude") <;> simp [extract_exif_data, h, hla]
  · intro la lo hla hlo
    simp [extract_exif_data, hla, hlo]

/-- Witness for C10 at a concrete tag table: the empty table yields the all-None
    dictionary on both the failure path and the no-relevant-tags path. -/
theorem exif_total_shape_witness :
    extract_exif_data none = emptyExif ∧
      (extract_exif_data (some (fun _ => none))).date = none ∧
      (extract_exif_data (some (fun _ => none))).location = none := by
  have h := exif_total_shape (fun _ => none)
  exact ⟨h.1, h.2.2.2.1 rfl rfl, h.2.2.2.2.2.1 (Or.inl rfl)⟩

/-- The rounding step keeps the two-decimal rounding of a value in [-1, 1] inside
    [-1, 1]. -/
theorem round2_bound (q : Rat) (h1 : -1 ≤ q) (h2 : q ≤ 1) :
    -1 ≤ round2 q ∧ round2 q ≤ 1 := by
  have hn1 : (-100 : Rat) ≤ q * 100 := by linarith
  have hn2 : q * 100 ≤ 100 := by linarith
  have hfl : ((⌊q * 100⌋ : Rat)) ≤ q * 100 := Int.floor_le _
  have hfu : q * 100 < (⌊q * 100⌋ : Rat) + 1 := Int.lt_floor_add_one _
  have hb : -100 ≤ round_half_even (q * 100) ∧ round_half_even (q * 100) ≤ 100 := by
    unfold round_half_even
    have hfl' : (-100 : Int) ≤ ⌊q * 100⌋ := by
      have : (-101 : Rat) < (⌊q * 100⌋ : Rat) := by linarith
      have h' : (-101 : Int) < ⌊q * 100⌋ := by exact_mod_cast this
      omega
    have hfu' : ⌊q * 100⌋ ≤ 100 := by
      have : ((⌊q * 100⌋ : Rat)) ≤ 100 := by linarith
      exact_mod_cast this
    split
    · exact ⟨hfl', hfu'⟩
    · split
      · constructor
        · omega
        · have hgt : (1 : Rat) / 2 < q * 100 - (⌊q * 100⌋ : Rat) := by assumption
          have : ((⌊q * 100⌋ : Rat)) < 100 - 1 / 2 := by linarith
          have h' : ((⌊q * 100⌋ : Rat)) < 100 := by linarith
          have h'' : ⌊q * 100⌋ < 100 := by exact_mod_cast h'
          omega
      · have hge : ¬ (q * 100 - (⌊q * 100⌋ : Rat) < 1 / 2) := by assumption
        have hle : ¬ ((1 : Rat) / 2 < q * 100 - (⌊q * 100⌋ : Rat)) := by assumption
        have heq : q * 100 - (⌊q * 100⌋ : Rat) = 1 / 2 := le_antisymm (not_lt.mp hle) (not_lt.mp hge)
        have : ((⌊q * 100⌋ : Rat)) = q * 100 - 1 / 2 := by linarith
        have h' : ((⌊q * 100⌋ : Rat)) < 100 := by linarith
        have h'' : ⌊q * 100⌋ < 100 := by exact_mod_cast h'
        split
        · exact ⟨hfl', hfu'⟩
        · constructor
          · omega
          · omega
  have hcast1 : (-100 : Rat) ≤ (round_half_even (q * 100) : Rat) := by exact_mod_cast hb.1
  have hcast2 : ((round_half_even (q * 100)) : Rat) ≤ 100 := by exact_mod_cast hb.2
  constructor
  · rw [round2]
    linarith
  · rw [round2]
    linarith

/-- C8: under the collaborator contract that TextBlob and VADER scores lie in
    [-1, 1] (sentiment_utils absorbs their exceptions into 0.0 beforehand), the
    computed sentiment lies in [-1, 1] for every input text; empty and
    whitespace-only text yields exactly 0.0 with the scorers never invoked; and
    the upload path stores exactly 0.0 for an absent (empty) extracted text
    without even calling analyze_sentiment. -/
theorem sentiment_bounds (tb vd : String → Rat)
    (htb : ∀ s, -1 ≤ tb s ∧ tb s ≤ 1) (hvd : ∀ s, -1 ≤ vd s ∧ vd s ≤ 1) :
    (∀ text, -1 ≤ (analyze_sentiment tb vd text).1 ∧
      (analyze_sentiment tb vd text).1 ≤ 1) ∧
    (∀ text, pyStrip text = "" → analyze_sentiment tb vd text = (0, false)) ∧
    sentimentFor tb vd ("") = 0 := by
  refine ⟨?_, ?_, rfl⟩
  · intro text
    unfold analyze_sentiment
    split
    · constructor <;> norm_num
    · split
      · constructor <;> norm_num
      · have havg : -1 ≤ (tb (clean_text_for_sentiment text) +
            vd (clean_text_for_sentiment text)) / 2 ∧
            (tb (clean_text_for_sentiment text) +
              vd (clean_text_for_sentiment text)) / 2 ≤ 1 := by
          have h1 := htb (clean_text_for_sentiment text)
          have h2 := hvd (clean_text_for_sentiment text)
          constructor <;> [linarith; linarith]
        exact round2_bound _ havg.1 havg.2
  · intro text h
    unfold analyze_sentiment
    rw [h]
    simp

/-- Witness for C8 at concrete inputs: with the constant-zero scorers the score of
    "great day" is within bounds, the whitespace-only text "  " scores exactly 0.0
    with the scorers not invoked, and empty extracted text stores 0.0. -/
theorem sentiment_bounds_witness :
    (-1 ≤ (analyze_sentiment (fun _ => 0) (fun _ => 0) ("great day")).1 ∧
      (analyze_sentiment (fun _ => 0) (fun _ => 0) ("great day")).1 ≤ 1) ∧
      analyze_sentiment (fun _ => 0) (fun _ => 0) ("  ") = (0, false) ∧
      sentimentFor (fun _ => 0) (fun _ => 0) ("") = 0 := by
  have h := sentiment_bounds (fun _ => 0) (fun _ => 0)
    (fun s => by norm_num) (fun s => by norm_num)
  exact ⟨h.1 ("great day"), h.2.1 ("  ") (by decide), h.2.2⟩

/-- A valid create always succeeds, committing exactly the assembled row and its
    index projection. -/
theorem create_memory_some (title : String) (text date location : Option String)
    (sentiment : Rat) (mp mt : String) (hmt : mt = "image" ∨ mt = "audio")
    (person : Option String) (now : Nat) (db : DB) :
    create_memory title text date location sentiment (some mp) (some mt) person now
        db =
      some (db.next_id,
        ⟨db.next_id + 1,
          db.memories ++
            [⟨db.next_id, title, text, date, location, sentiment, mp, mt, person,
              now, now⟩],
          db.postings ++
            rowPostings ⟨db.next_id, title, text, date, location, sentiment, mp, mt,
              person, now, now⟩⟩) := by
  simp only [create_memory, if_pos hmt]

/-- C3 counterexample: with Tesseract unavailable, ingestion indeed commits a
    record (the non-fatal half of the claim holds), but the committed text field is
    the non-empty diagnostic "OCR not available - Tesseract not installed" rather
    than the empty or absent value the claim states; the same happens for ASR
    failures, whose diagnostic embeds the exception text. -/
theorem extraction_failure_text_counterexample :
    extract_text_from_image OcrOutcome.engineMissing =
        "OCR not available - Tesseract not installed" ∧
      (upload_memory failCollab ⟨some ("image/jpeg"), "My title", none⟩ ("u.jpg") 5
        exDb0).1 = UploadResult.ok 1 ∧
      (get_memory_by_id 1
          (upload_memory failCollab ⟨some ("image/jpeg"), "My title", none⟩ ("u.jpg") 5
            exDb0).2).map MemRow.text =
        some (some ("OCR not available - Tesseract not installed")) ∧
      transcribe_audio ("uploads/a.wav") (AsrOutcome.failed ("read error")) =
        "Transcription failed: read error" := by
  refine ⟨rfl, rfl, rfl, rfl⟩

/-- C3 (amended): a failure of any extraction collaborator never aborts the
    ingestion — the upload still commits exactly one record — and EXIF failures do
    yield absent date and location; but a failed OCR or ASR does not leave the text
    field empty: it stores a non-empty diagnostic string ("OCR not available -
    Tesseract not installed", "Text extraction failed: …", "Transcription failed:
    …") as the extracted text. -/
theorem extraction_nonfatal (c : Collaborators) (args : UploadArgs)
    (uuid_name : String) (now : Nat) (db : DB)
    (hw : ∀ r ∈ db.memories, r.id < db.next_id) (ct : String)
    (hct : args.content_type = some ct) :
    (startsWithStr ("image/") ct = true →
      upload_memory c args uuid_name now db =
        (.ok db.next_id,
          ⟨db.next_id + 1,
            db.memories ++
              [assembled_row c args.title args.person uuid_name now true db.next_id],
            db.postings ++
              rowPostings (assembled_row c args.title args.person uuid_name now true
                db.next_id)⟩) ∧
      get_memory_by_id db.next_id (upload_memory c args uuid_name now db).2 =
        some (assembled_row c args.title args.person uuid_name now true db.next_id) ∧
      (assembled_row c args.title args.person uuid_name now true db.next_id).text =
        some (extract_text_from_image c.ocr) ∧
      (assembled_row c args.title args.person uuid_name now true db.next_id).date =
        (extract_exif_data c.exif).date ∧
      (assembled_row c args.title args.person uuid_name now true
        db.next_id).location = (extract_exif_data c.exif).location ∧
      (c.exif = none → (extract_exif_data c.exif).date = none ∧
        (extract_exif_data c.exif).location = none) ∧
      (∀ e, c.ocr = .failed e →
        extract_text_from_image c.ocr = "Text extraction failed: " ++ e)) ∧
    (startsWithStr ("image/") ct = false → startsWithStr ("audio/") ct = true →
      upload_memory c args uuid_name now db =
        (.ok db.next_id,
          ⟨db.next_id + 1,
            db.memories ++
              [assembled_row c args.title args.person uuid_name now false db.next_id],
            db.postings ++
              rowPostings (assembled_row c args.title args.person uuid_name now false
                db.next_id)⟩) ∧
      get_memory_by_id db.next_id (upload_memory c args uuid_name now db).2 =
        some (assembled_row c args.title args.person uuid_name now false
          db.next_id) ∧
      (assembled_row c args.title args.person uuid_name now false db.next_id).text =
        some (transcribe_audio ("uploads/" ++ uuid_name) c.asr) ∧
      (assembled_row c args.title args.person uuid_name now false db.next_id).date =
        none ∧
      (assembled_row c args.title args.person uuid_name now false
        db.next_id).location = none ∧
      (∀ e, c.asr = .failed e →
        transcribe_audio ("uploads/" ++ uuid_name) c.asr =
          "Transcription failed: " ++ e)) := by
  constructor
  · intro himg
    have hup : upload_memory c args uuid_name now db =
        (.ok db.next_id,
          ⟨db.next_id + 1,
            db.memories ++
              [assembled_row c args.title args.person uuid_name now true db.next_id],
            db.postings ++
              rowPostings (assembled_row c args.title args.person uuid_name now true
                db.next_id)⟩) := by
      unfold upload_memory
      rw [hct]
      simp only [himg, Bool.not_true, Bool.false_and, Bool.false_eq_true, if_false,
        if_true]
      rw [create_memory_some _ _ _ _ _ _ _ (Or.inl rfl)]
      rfl
    refine ⟨hup, ?_, rfl, rfl, rfl, ?_, ?_⟩
    · rw [hup]
      unfold get_memory_by_id
      exact find?_append_new db hw _ rfl
    · intro he
      rw [he]
      exact ⟨rfl, rfl⟩
    · intro e he
      rw [he]
      rfl
  · intro himg haud
    have hup : upload_memory c args uuid_name now db =
        (.ok db.next_id,
          ⟨db.next_id + 1,
            db.memories ++
              [assembled_row c args.title args.person uuid_name now false db.next_id],
            db.postings ++
              rowPostings (assembled_row c args.title args.person uuid_name now false
                db.next_id)⟩) := by
      unfold upload_memory
      rw [hct]
      simp only [himg, haud, Bool.not_true, Bool.not_false, Bool.true_and,
        Bool.and_true, Bool.false_eq_true, if_false, if_true]
      rw [create_memory_some _ _ _ _ _ _ _ (Or.inr rfl)]
      rfl
    refine ⟨hup, ?_, rfl, rfl, rfl, ?_⟩
    · rw [hup]
      unfold get_memory_by_id
      exact find?_append_new db hw _ rfl
    · intro e he
      rw [he]
      rfl

/-- Witness for C3 (amended) at concrete failing collaborators on the fresh state:
    an image upload with Tesseract missing and exifread failing still commits, with
    absent date and location; an audio upload with a failing Whisper still commits
    with the diagnostic transcript. -/
theorem extraction_nonfatal_witness :
    (upload_memory failCollab ⟨some ("image/jpeg"), "My title", none⟩ ("u.jpg") 5
        exDb0).2.memories.length = 1 ∧
      (upload_memory failCollab ⟨some ("audio/wav"), "My title", none⟩ ("u.wav") 5
        exDb0).2.memories.length = 1 := by
  have h := (extraction_nonfatal failCollab ⟨some ("image/jpeg"), "My title", none⟩
    ("u.jpg") 5 exDb0 (by intro r hr; cases hr) ("image/jpeg") rfl).1 (by decide)
  have h2 := (extraction_nonfatal failCollab ⟨some ("audio/wav"), "My title", none⟩
    ("u.wav") 5 exDb0 (by intro r hr; cases hr) ("audio/wav") rfl).2 (by decide)
    (by decide)
  rw [h.1, h2.1]
  exact ⟨rfl, rfl⟩

/-- C7 counterexample: an upload whose title is the empty string is not rejected —
    with a supported image content type it runs to the end and commits a record
    whose title is "", where the claim demands rejection with no record created. -/
theorem empty_title_accepted_counterexample :
    (upload_memory emptyOkCollab ⟨some ("image/jpeg"), "", none⟩ ("u.jpg") 5
        exDb0).1 = UploadResult.ok 1 ∧
      (upload_memory emptyOkCollab ⟨some ("image/jpeg"), "", none⟩ ("u.jpg") 5
        exDb0).2.memories.length = 1 ∧
      (get_memory_by_id 1
          (upload_memory emptyOkCollab ⟨some ("image/jpeg"), "", none⟩ ("u.jpg") 5
            exDb0).2).map MemRow.title = some ("") := by
  refine ⟨rfl, rfl, rfl⟩

/-- C7 (amended): validation rejects an upload with a missing or unsupported
    content type before any record is created (the state is untouched), and a
    missing title field is rejected by the HTTP layer before the endpoint runs; but
    an empty-string title passes validation: the upload is processed like any other
    and commits a record whose title is the empty string. -/
theorem upload_validation (c : Collaborators) (title uuid_name : String)
    (person : Option String) (now : Nat) (db : DB)
    (hw : ∀ r ∈ db.memories, r.id < db.next_id) :
    upload_memory c ⟨none, title, person⟩ uuid_name now db =
      (.err ("File type not detected"), db) ∧
    (∀ ct, startsWithStr ("image/") ct = false → startsWithStr ("audio/") ct = false →
      upload_memory c ⟨some ct, title, person⟩ uuid_name now db =
        (.err ("Only image (JPEG, PNG) and audio (MP3, WAV) files are supported"),
          db)) ∧
    (∀ ct, startsWithStr ("image/") ct = true →
      get_memory_by_id db.next_id
          (upload_memory c ⟨some ct, "", person⟩ uuid_name now db).2 =
        some (assembled_row c ("") person uuid_name now true db.next_id) ∧
      (assembled_row c ("") person uuid_name now true db.next_id).title = "" ∧
      (upload_memory c ⟨some ct, "", person⟩ uuid_name now db).1 =
        .ok db.next_id) := by
  refine ⟨rfl, ?_, ?_⟩
  · intro ct h1 h2
    simp [upload_memory, h1, h2]
  · intro ct himg
    have hup : upload_memory c ⟨some ct, "", person⟩ uuid_name now db =
        (.ok db.next_id,
          ⟨db.next_id + 1,
            db.memories ++
              [assembled_row c ("") person uuid_name now true db.next_id],
            db.postings ++
              rowPostings (assembled_row c ("") person uuid_name now true
                db.next_id)⟩) := by
      unfold upload_memory
      simp only [himg, Bool.not_true, Bool.false_and, Bool.false_eq_true, if_false,
        if_true]
      rw [create_memory_some _ _ _ _ _ _ _ (Or.inl rfl)]
      rfl
    refine ⟨?_, rfl, ?_⟩
    · rw [hup]
      unfold get_memory_by_id
      exact find?_append_new db hw _ rfl
    · rw [hup]

/-- Witness for C7 (amended) at concrete inputs: a missing content type and a text
    file are rejected with the fresh state unchanged, while an empty title with a
    supported image type commits record 1 with title "". -/
theorem upload_validation_witness :
    upload_memory emptyOkCollab ⟨none, "T", none⟩ ("u.jpg") 5 exDb0 =
      (.err ("File type not detected"), exDb0) ∧
    upload_memory emptyOkCollab ⟨some ("text/plain"), "T", none⟩ ("u.jpg") 5 exDb0 =
      (.err ("Only image (JPEG, PNG) and audio (MP3, WAV) files are supported"),
        exDb0) ∧
    (get_memory_by_id 1
        (upload_memory emptyOkCollab ⟨some ("image/jpeg"), "", none⟩ ("u.jpg") 5
          exDb0).2).map MemRow.title = some ("") := by
  have h := upload_validation emptyOkCollab ("T") ("u.jpg") none 5 exDb0
    (by intro r hr; cases hr)
  refine ⟨h.1, h.2.1 ("text/plain") (by decide) (by decide), ?_⟩
  have h3 := h.2.2 ("image/jpeg") (by decide)
  show (get_memory_by_id exDb0.next_id
    (upload_memory emptyOkCollab ⟨some ("image/jpeg"), "", none⟩ ("u.jpg") 5
      exDb0).2).map MemRow.title = some ("")
  rw [h3.1]
  simp only [Option.map_some']
  exact congrArg some h3.2.1

end MemoriaVault
